import Mathlib

/-!
Shallow embedding of `src/atomic.cpp` from cortex-m_atomics.

The library is a polyfill for the compiler atomic intrinsics on armv6m.
We model the observable machine effects of one call as a pure state
transformer over a single target location together with the PRIMASK
interrupt-mask flag, emitting a trace of the hardware-visible events the
code issues: `dmb` barriers, the raw read/write of the location, and the
`cpsid i` / `cpsie i` instructions of the critical-section guard.
-/

/-- Hardware-visible events issued by the library. -/
inductive Event where
  | dmb : Event
  | readMem : Event
  | writeMem : Int → Event
  | cpsid : Event
  | cpsie : Event
deriving DecidableEq, Repr

abbrev Trace := List Event

/-- Machine state relevant to one call: the content of the target location
and the PRIMASK flag (`true` when interrupts are masked/disabled). -/
structure MachState where
  mem : Int
  primask : Bool
deriving DecidableEq, Repr

/-- Values of the C++ `std::memory_order` enumeration. -/
def memory_order_relaxed : Int := 0

def memory_order_consume : Int := 1

def memory_order_acquire : Int := 2

def memory_order_release : Int := 3

def memory_order_acq_rel : Int := 4

def memory_order_seq_cst : Int := 5

/-- `mrs %0, primask`: reads the interrupt mask; `true` if masked. -/
def get_interrupt_mask (s : MachState) : Bool := s.primask

/-- `inline void memory_barrier() { asm volatile("dmb"); }` as trace. -/
def memory_barrier : Trace := [Event.dmb]

/-- `critical_section` (non-void overload): records whether interrupts were
enabled, masks them (`cpsid i`) if so, runs the action, and unmasks
(`cpsie i`) only if it masked them itself. -/
def critical_section {α : Type} (action : MachState → α × MachState × Trace)
    (s : MachState) : α × MachState × Trace :=
  if get_interrupt_mask s = false then
    let r := action { s with primask := true }
    (r.1, { r.2.1 with primask := false },
      Event.cpsid :: r.2.2 ++ [Event.cpsie])
  else
    action s

/-- `critical_section` (void overload): same logic for actions without a
return value. -/
def critical_section_void (action : MachState → MachState × Trace)
    (s : MachState) : MachState × Trace :=
  if get_interrupt_mask s = false then
    let r := action { s with primask := true }
    ({ r.1 with primask := false },
      Event.cpsid :: r.2 ++ [Event.cpsie])
  else
    action s

/-- `atomic_store<T>`: barrier before the write unless relaxed; barrier
after the write for seq_cst, acq_rel or acquire. -/
def atomic_store (value : Int) (order : Int) (s : MachState) :
    MachState × Trace :=
  let pre := if order ≠ memory_order_relaxed then memory_barrier else []
  let s1 : MachState := { s with mem := value }
  let post := if order = memory_order_seq_cst ∨ order = memory_order_acq_rel
      ∨ order = memory_order_acquire then memory_barrier else []
  (s1, pre ++ [Event.writeMem value] ++ post)

/-- `__atomic_store_8`: the store wrapped in the critical-section guard. -/
def __atomic_store_8 (value : Int) (order : Int) (s : MachState) :
    MachState × Trace :=
  critical_section_void (fun s0 => atomic_store value order s0) s

/-- `__atomic_store_4`: plain translated store, no guard. -/
def __atomic_store_4 (value : Int) (order : Int) (s : MachState) :
    MachState × Trace :=
  atomic_store value order s

/-- `__atomic_store_2`: plain translated store, no guard. -/
def __atomic_store_2 (value : Int) (order : Int) (s : MachState) :
    MachState × Trace :=
  atomic_store value order s

/-- `__atomic_store_1`: plain translated store, no guard. -/
def __atomic_store_1 (value : Int) (order : Int) (s : MachState) :
    MachState × Trace :=
  atomic_store value order s

/-- `atomic_load<T>`: barrier before the read for seq_cst, acq_rel or
release; barrier after the read unless relaxed. -/
def atomic_load (order : Int) (s : MachState) : Int × MachState × Trace :=
  let pre := if order = memory_order_seq_cst ∨ order = memory_order_acq_rel
      ∨ order = memory_order_release then memory_barrier else []
  let value := s.mem
  let post := if order ≠ memory_order_relaxed then memory_barrier else []
  (value, s, pre ++ [Event.readMem] ++ post)

/-- `__atomic_load_8`: the load wrapped in the critical-section guard. -/
def __atomic_load_8 (order : Int) (s : MachState) : Int × MachState × Trace :=
  critical_section (fun s0 => atomic_load order s0) s

/-- `__atomic_load_4`: plain translated load, no guard. -/
def __atomic_load_4 (order : Int) (s : MachState) : Int × MachState × Trace :=
  atomic_load order s

/-- `__atomic_load_2`: plain translated load, no guard. -/
def __atomic_load_2 (order : Int) (s : MachState) : Int × MachState × Trace :=
  atomic_load order s

/-- `__atomic_load_1`: plain translated load, no guard. -/
def __atomic_load_1 (order : Int) (s : MachState) : Int × MachState × Trace :=
  atomic_load order s

/-- `atomic_exchange<T>`: inside the guard, barrier unless relaxed, read the
old value, write the new one, barrier unless relaxed, return the old
value. -/
def atomic_exchange (value : Int) (order : Int) (s : MachState) :
    Int × MachState × Trace :=
  critical_section (fun s0 =>
    let pre := if order ≠ memory_order_relaxed then memory_barrier else []
    let prev_val := s0.mem
    let s1 : MachState := { s0 with mem := value }
    let post := if order ≠ memory_order_relaxed then memory_barrier else []
    (prev_val, s1, pre ++ [Event.readMem, Event.writeMem value] ++ post)) s

/-- `__atomic_exchange_8`. -/
def __atomic_exchange_8 (value : Int) (order : Int) (s : MachState) :
    Int × MachState × Trace :=
  atomic_exchange value order s

/-- `__atomic_exchange_4`. -/
def __atomic_exchange_4 (value : Int) (order : Int) (s : MachState) :
    Int × MachState × Trace :=
  atomic_exchange value order s

/-- `__atomic_exchange_2`. -/
def __atomic_exchange_2 (value : Int) (order : Int) (s : MachState) :
    Int × MachState × Trace :=
  atomic_exchange value order s

/-- `__atomic_exchange_1`. -/
def __atomic_exchange_1 (value : Int) (order : Int) (s : MachState) :
    Int × MachState × Trace :=
  atomic_exchange value order s

/-! Trace-analysis helpers. -/

/-- Is the event a `dmb` barrier? -/
def isDmb : Event → Bool
  | Event.dmb => true
  | _ => false

/-- Is the event a raw access of the target location? -/
def isAccess : Event → Bool
  | Event.readMem => true
  | Event.writeMem _ => true
  | _ => false

/-- Number of `dmb` events in a trace. -/
def dmbCount : Trace → Nat
  | [] => 0
  | e :: rest => (if isDmb e then 1 else 0) + dmbCount rest

/-- Number of `dmb` events strictly before the first raw access. -/
def preAccessDmbs : Trace → Nat
  | [] => 0
  | e :: rest =>
    if isAccess e then 0 else (if isDmb e then 1 else 0) + preAccessDmbs rest

/-- Number of `dmb` events strictly after the last raw access. -/
def postAccessDmbs (tr : Trace) : Nat := preAccessDmbs tr.reverse

/-- The subtrace of barrier and raw-access events, dropping the interrupt
mask toggles of the guard. -/
def accessAndBarriers : Trace → Trace
  | [] => []
  | e :: rest =>
    if isDmb e || isAccess e then e :: accessAndBarriers rest
    else accessAndBarriers rest

/-- Barrier sequence the ordering-to-barrier translator would emit for a
load with ordering `order` immediately followed by a store of `value` with
the same ordering, as the spec describes for exchange: entry barriers per
the load rule, exit barriers per the store rule. This is the spec-side
definition for the refinement claim about `atomic_exchange`. -/
def translator_load_store_pair (value : Int) (order : Int) : Trace :=
  (if order = memory_order_seq_cst ∨ order = memory_order_acq_rel
      ∨ order = memory_order_release then memory_barrier else [])
    ++ [Event.readMem, Event.writeMem value]
    ++ (if order = memory_order_seq_cst ∨ order = memory_order_acq_rel
      ∨ order = memory_order_acquire then memory_barrier else [])

/-! Claim theorems. -/

/-- C6: for every width, `exchange(ptr, v, O)` returns the value stored at
the location immediately before the call, leaves `v` in the location, and a
subsequent load at any ordering on the same location returns `v`. -/
theorem exchange_returns_previous_and_installs_value
    (s : MachState) (v o o2 : Int) :
    ((__atomic_exchange_1 v o s).1 = s.mem
      ∧ (__atomic_exchange_1 v o s).2.1.mem = v
      ∧ (__atomic_load_1 o2 (__atomic_exchange_1 v o s).2.1).1 = v)
    ∧ ((__atomic_exchange_2 v o s).1 = s.mem
      ∧ (__atomic_exchange_2 v o s).2.1.mem = v
      ∧ (__atomic_load_2 o2 (__atomic_exchange_2 v o s).2.1).1 = v)
    ∧ ((__atomic_exchange_4 v o s).1 = s.mem
      ∧ (__atomic_exchange_4 v o s).2.1.mem = v
      ∧ (__atomic_load_4 o2 (__atomic_exchange_4 v o s).2.1).1 = v)
    ∧ ((__atomic_exchange_8 v o s).1 = s.mem
      ∧ (__atomic_exchange_8 v o s).2.1.mem = v
      ∧ (__atomic_load_8 o2 (__atomic_exchange_8 v o s).2.1).1 = v) := by
  by_cases h : s.primask <;>
    simp [__atomic_exchange_1, __atomic_exchange_2, __atomic_exchange_4,
      __atomic_exchange_8, atomic_exchange, critical_section,
      __atomic_load_1, __atomic_load_2, __atomic_load_4, __atomic_load_8,
      atomic_load, get_interrupt_mask, h]

/-- C7: for every width, every ordering and every value, a store followed
immediately by a load of the same location returns the stored value. -/
theorem store_then_load_returns_stored (s : MachState) (v o : Int) :
    (__atomic_load_1 o (__atomic_store_1 v o s).1).1 = v
    ∧ (__atomic_load_2 o (__atomic_store_2 v o s).1).1 = v
    ∧ (__atomic_load_4 o (__atomic_store_4 v o s).1).1 = v
    ∧ (__atomic_load_8 o (__atomic_store_8 v o s).1).1 = v := by
  by_cases h : s.primask <;>
    simp [__atomic_store_1, __atomic_store_2, __atomic_store_4,
      __atomic_store_8, atomic_store, critical_section_void,
      __atomic_load_1, __atomic_load_2, __atomic_load_4, __atomic_load_8,
      atomic_load, critical_section, get_interrupt_mask, h]

/-- C10: the data results never depend on the ordering argument: at every
width, loads at two orderings return the same value, stores at two
orderings leave the same memory content, and exchanges at two orderings
return the same previous value and leave the same memory content. -/
theorem results_independent_of_order (s : MachState) (v o1 o2 : Int) :
    ((__atomic_load_1 o1 s).1 = (__atomic_load_1 o2 s).1
      ∧ (__atomic_load_2 o1 s).1 = (__atomic_load_2 o2 s).1
      ∧ (__atomic_load_4 o1 s).1 = (__atomic_load_4 o2 s).1
      ∧ (__atomic_load_8 o1 s).1 = (__atomic_load_8 o2 s).1)
    ∧ ((__atomic_store_1 v o1 s).1.mem = (__atomic_store_1 v o2 s).1.mem
      ∧ (__atomic_store_2 v o1 s).1.mem = (__atomic_store_2 v o2 s).1.mem
      ∧ (__atomic_store_4 v o1 s).1.mem = (__atomic_store_4 v o2 s).1.mem
      ∧ (__atomic_store_8 v o1 s).1.mem = (__atomic_store_8 v o2 s).1.mem)
    ∧ ((__atomic_exchange_1 v o1 s).1 = (__atomic_exchange_1 v o2 s).1
      ∧ (__atomic_exchange_1 v o1 s).2.1.mem
        = (__atomic_exchange_1 v o2 s).2.1.mem)
    ∧ ((__atomic_exchange_2 v o1 s).1 = (__atomic_exchange_2 v o2 s).1
      ∧ (__atomic_exchange_2 v o1 s).2.1.mem
        = (__atomic_exchange_2 v o2 s).2.1.mem)
    ∧ ((__atomic_exchange_4 v o1 s).1 = (__atomic_exchange_4 v o2 s).1
      ∧ (__atomic_exchange_4 v o1 s).2.1.mem
        = (__atomic_exchange_4 v o2 s).2.1.mem)
    ∧ ((__atomic_exchange_8 v o1 s).1 = (__atomic_exchange_8 v o2 s).1
      ∧ (__atomic_exchange_8 v o1 s).2.1.mem
        = (__atomic_exchange_8 v o2 s).2.1.mem) := by
  by_cases h : s.primask <;>
    simp [__atomic_load_1, __atomic_load_2, __atomic_load_4, __atomic_load_8,
      atomic_load, __atomic_store_1, __atomic_store_2, __atomic_store_4,
      __atomic_store_8, atomic_store, critical_section_void,
      __atomic_exchange_1, __atomic_exchange_2, __atomic_exchange_4,
      __atomic_exchange_8, atomic_exchange, critical_section,
      get_interrupt_mask, h]

/-- C2: at every width, a store emits exactly one barrier before the write
unless the ordering is relaxed (then none), and exactly one barrier after
the write exactly for acquire, acq_rel and seq_cst (none otherwise, in
particular none for relaxed, consume and release). -/
theorem store_barrier_placement (s : MachState) (v o : Int) :
    (preAccessDmbs (__atomic_store_1 v o s).2
        = (if o = memory_order_relaxed then 0 else 1)
      ∧ postAccessDmbs (__atomic_store_1 v o s).2
        = (if o = memory_order_acquire ∨ o = memory_order_acq_rel
            ∨ o = memory_order_seq_cst then 1 else 0))
    ∧ (preAccessDmbs (__atomic_store_2 v o s).2
        = (if o = memory_order_relaxed then 0 else 1)
      ∧ postAccessDmbs (__atomic_store_2 v o s).2
        = (if o = memory_order_acquire ∨ o = memory_order_acq_rel
            ∨ o = memory_order_seq_cst then 1 else 0))
    ∧ (preAccessDmbs (__atomic_store_4 v o s).2
        = (if o = memory_order_relaxed then 0 else 1)
      ∧ postAccessDmbs (__atomic_store_4 v o s).2
        = (if o = memory_order_acquire ∨ o = memory_order_acq_rel
            ∨ o = memory_order_seq_cst then 1 else 0))
    ∧ (preAccessDmbs (__atomic_store_8 v o s).2
        = (if o = memory_order_relaxed then 0 else 1)
      ∧ postAccessDmbs (__atomic_store_8 v o s).2
        = (if o = memory_order_acquire ∨ o = memory_order_acq_rel
            ∨ o = memory_order_seq_cst then 1 else 0)) := by
  by_cases h : s.primask <;> by_cases h0 : o = 0 <;> by_cases h2 : o = 2 <;>
    by_cases h4 : o = 4 <;> by_cases h5 : o = 5 <;>
    first
      | omega
      | simp [__atomic_store_1, __atomic_store_2, __atomic_store_4,
          __atomic_store_8, atomic_store, critical_section_void,
          get_interrupt_mask, memory_order_relaxed, memory_order_seq_cst,
          memory_order_acq_rel, memory_order_acquire, memory_barrier,
          preAccessDmbs, postAccessDmbs, isDmb, isAccess, h, h0, h2, h4, h5]

/-- C3: at every width, a load emits exactly one barrier before the read
exactly for seq_cst, acq_rel and release (none otherwise), and exactly one
barrier after the read unless the ordering is relaxed (then none). -/
theorem load_barrier_placement (s : MachState) (o : Int) :
    (preAccessDmbs (__atomic_load_1 o s).2.2
        = (if o = memory_order_seq_cst ∨ o = memory_order_acq_rel
            ∨ o = memory_order_release then 1 else 0)
      ∧ postAccessDmbs (__atomic_load_1 o s).2.2
        = (if o = memory_order_relaxed then 0 else 1))
    ∧ (preAccessDmbs (__atomic_load_2 o s).2.2
        = (if o = memory_order_seq_cst ∨ o = memory_order_acq_rel
            ∨ o = memory_order_release then 1 else 0)
      ∧ postAccessDmbs (__atomic_load_2 o s).2.2
        = (if o = memory_order_relaxed then 0 else 1))
    ∧ (preAccessDmbs (__atomic_load_4 o s).2.2
        = (if o = memory_order_seq_cst ∨ o = memory_order_acq_rel
            ∨ o = memory_order_release then 1 else 0)
      ∧ postAccessDmbs (__atomic_load_4 o s).2.2
        = (if o = memory_order_relaxed then 0 else 1))
    ∧ (preAccessDmbs (__atomic_load_8 o s).2.2
        = (if o = memory_order_seq_cst ∨ o = memory_order_acq_rel
            ∨ o = memory_order_release then 1 else 0)
      ∧ postAccessDmbs (__atomic_load_8 o s).2.2
        = (if o = memory_order_relaxed then 0 else 1)) := by
  by_cases h : s.primask <;> by_cases h0 : o = 0 <;> by_cases h3 : o = 3 <;>
    by_cases h4 : o = 4 <;> by_cases h5 : o = 5 <;>
    first
      | omega
      | simp [__atomic_load_1, __atomic_load_2, __atomic_load_4,
          __atomic_load_8, atomic_load, critical_section,
          get_interrupt_mask, memory_order_relaxed, memory_order_seq_cst,
          memory_order_acq_rel, memory_order_release, memory_barrier,
          preAccessDmbs, postAccessDmbs, isDmb, isAccess, h, h0, h3, h4, h5]

/-- C8: for each primitive at each width, the total number of barriers
emitted at seq_cst is at least the number emitted at acquire, and at least
the number emitted at release. -/
theorem seq_cst_barrier_monotonicity (s : MachState) (v : Int) :
    (dmbCount (__atomic_store_1 v memory_order_seq_cst s).2
        ≥ dmbCount (__atomic_store_1 v memory_order_acquire s).2
      ∧ dmbCount (__atomic_store_1 v memory_order_seq_cst s).2
        ≥ dmbCount (__atomic_store_1 v memory_order_release s).2)
    ∧ (dmbCount (__atomic_store_2 v memory_order_seq_cst s).2
        ≥ dmbCount (__atomic_store_2 v memory_order_acquire s).2
      ∧ dmbCount (__atomic_store_2 v memory_order_seq_cst s).2
        ≥ dmbCount (__atomic_store_2 v memory_order_release s).2)
    ∧ (dmbCount (__atomic_store_4 v memory_order_seq_cst s).2
        ≥ dmbCount (__atomic_store_4 v memory_order_acquire s).2
      ∧ dmbCount (__atomic_store_4 v memory_order_seq_cst s).2
        ≥ dmbCount (__atomic_store_4 v memory_order_release s).2)
    ∧ (dmbCount (__atomic_store_8 v memory_order_seq_cst s).2
        ≥ dmbCount (__atomic_store_8 v memory_order_acquire s).2
      ∧ dmbCount (__atomic_store_8 v memory_order_seq_cst s).2
        ≥ dmbCount (__atomic_store_8 v memory_order_release s).2)
    ∧ (dmbCount (__atomic_load_1 memory_order_seq_cst s).2.2
        ≥ dmbCount (__atomic_load_1 memory_order_acquire s).2.2
      ∧ dmbCount (__atomic_load_1 memory_order_seq_cst s).2.2
        ≥ dmbCount (__atomic_load_1 memory_order_release s).2.2)
    ∧ (dmbCount (__atomic_load_2 memory_order_seq_cst s).2.2
        ≥ dmbCount (__atomic_load_2 memory_order_acquire s).2.2
      ∧ dmbCount (__atomic_load_2 memory_order_seq_cst s).2.2
        ≥ dmbCount (__atomic_load_2 memory_order_release s).2.2)
    ∧ (dmbCount (__atomic_load_4 memory_order_seq_cst s).2.2
        ≥ dmbCount (__atomic_load_4 memory_order_acquire s).2.2
      ∧ dmbCount (__atomic_load_4 memory_order_seq_cst s).2.2
        ≥ dmbCount (__atomic_load_4 memory_order_release s).2.2)
    ∧ (dmbCount (__atomic_load_8 memory_order_seq_cst s).2.2
        ≥ dmbCount (__atomic_load_8 memory_order_acquire s).2.2
      ∧ dmbCount (__atomic_load_8 memory_order_seq_cst s).2.2
        ≥ dmbCount (__atomic_load_8 memory_order_release s).2.2)
    ∧ (dmbCount (__atomic_exchange_1 v memory_order_seq_cst s).2.2
        ≥ dmbCount (__atomic_exchange_1 v memory_order_acquire s).2.2
      ∧ dmbCount (__atomic_exchange_1 v memory_order_seq_cst s).2.2
        ≥ dmbCount (__atomic_exchange_1 v memory_order_release s).2.2)
    ∧ (dmbCount (__atomic_exchange_2 v memory_order_seq_cst s).2.2
        ≥ dmbCount (__atomic_exchange_2 v memory_order_acquire s).2.2
      ∧ dmbCount (__atomic_exchange_2 v memory_order_seq_cst s).2.2
        ≥ dmbCount (__atomic_exchange_2 v memory_order_release s).2.2)
    ∧ (dmbCount (__atomic_exchange_4 v memory_order_seq_cst s).2.2
        ≥ dmbCount (__atomic_exchange_4 v memory_order_acquire s).2.2
      ∧ dmbCount (__atomic_exchange_4 v memory_order_seq_cst s).2.2
        ≥ dmbCount (__atomic_exchange_4 v memory_order_release s).2.2)
    ∧ (dmbCount (__atomic_exchange_8 v memory_order_seq_cst s).2.2
        ≥ dmbCount (__atomic_exchange_8 v memory_order_acquire s).2.2
      ∧ dmbCount (__atomic_exchange_8 v memory_order_seq_cst s).2.2
        ≥ dmbCount (__atomic_exchange_8 v memory_order_release s).2.2) := by
  by_cases h : s.primask <;>
    simp [__atomic_store_1, __atomic_store_2, __atomic_store_4,
      __atomic_store_8, atomic_store, critical_section_void,
      __atomic_load_1, __atomic_load_2, __atomic_load_4, __atomic_load_8,
      atomic_load, __atomic_exchange_1, __atomic_exchange_2,
      __atomic_exchange_4, __atomic_exchange_8, atomic_exchange,
      critical_section, get_interrupt_mask, memory_order_relaxed,
      memory_order_seq_cst, memory_order_acq_rel, memory_order_acquire,
      memory_order_release, memory_barrier, dmbCount, isDmb, h]

/-- C9: every entry point is total in the ordering argument: for any
integer order value outside the six defined tags, stores still write the
value with a leading barrier only, loads still return the stored value
with a trailing barrier only, and exchanges still swap with a barrier on
each side, all returning normally. -/
theorem order_argument_totality (s : MachState) (v o : Int)
    (ho : o < 0 ∨ 5 < o) :
    ((__atomic_store_1 v o s).1.mem = v
      ∧ accessAndBarriers (__atomic_store_1 v o s).2
        = [Event.dmb, Event.writeMem v])
    ∧ ((__atomic_store_2 v o s).1.mem = v
      ∧ accessAndBarriers (__atomic_store_2 v o s).2
        = [Event.dmb, Event.writeMem v])
    ∧ ((__atomic_store_4 v o s).1.mem = v
      ∧ accessAndBarriers (__atomic_store_4 v o s).2
        = [Event.dmb, Event.writeMem v])
    ∧ ((__atomic_store_8 v o s).1.mem = v
      ∧ accessAndBarriers (__atomic_store_8 v o s).2
        = [Event.dmb, Event.writeMem v])
    ∧ ((__atomic_load_1 o s).1 = s.mem
      ∧ accessAndBarriers (__atomic_load_1 o s).2.2
        = [Event.readMem, Event.dmb])
    ∧ ((__atomic_load_2 o s).1 = s.mem
      ∧ accessAndBarriers (__atomic_load_2 o s).2.2
        = [Event.readMem, Event.dmb])
    ∧ ((__atomic_load_4 o s).1 = s.mem
      ∧ accessAndBarriers (__atomic_load_4 o s).2.2
        = [Event.readMem, Event.dmb])
    ∧ ((__atomic_load_8 o s).1 = s.mem
      ∧ accessAndBarriers (__atomic_load_8 o s).2.2
        = [Event.readMem, Event.dmb])
    ∧ ((__atomic_exchange_1 v o s).1 = s.mem
      ∧ (__atomic_exchange_1 v o s).2.1.mem = v
      ∧ accessAndBarriers (__atomic_exchange_1 v o s).2.2
        = [Event.dmb, Event.readMem, Event.writeMem v, Event.dmb])
    ∧ ((__atomic_exchange_2 v o s).1 = s.mem
      ∧ (__atomic_exchange_2 v o s).2.1.mem = v
      ∧ accessAndBarriers (__atomic_exchange_2 v o s).2.2
        = [Event.dmb, Event.readMem, Event.writeMem v, Event.dmb])
    ∧ ((__atomic_exchange_4 v o s).1 = s.mem
      ∧ (__atomic_exchange_4 v o s).2.1.mem = v
      ∧ accessAndBarriers (__atomic_exchange_4 v o s).2.2
        = [Event.dmb, Event.readMem, Event.writeMem v, Event.dmb])
    ∧ ((__atomic_exchange_8 v o s).1 = s.mem
      ∧ (__atomic_exchange_8 v o s).2.1.mem = v
      ∧ accessAndBarriers (__atomic_exchange_8 v o s).2.2
        = [Event.dmb, Event.readMem, Event.writeMem v, Event.dmb]) := by
  have h0 : o ≠ 0 := by omega
  have h2 : o ≠ 2 := by omega
  have h3 : o ≠ 3 := by omega
  have h4 : o ≠ 4 := by omega
  have h5 : o ≠ 5 := by omega
  by_cases h : s.primask <;>
    simp [__atomic_store_1, __atomic_store_2, __atomic_store_4,
      __atomic_store_8, atomic_store, critical_section_void,
      __atomic_load_1, __atomic_load_2, __atomic_load_4, __atomic_load_8,
      atomic_load, __atomic_exchange_1, __atomic_exchange_2,
      __atomic_exchange_4, __atomic_exchange_8, atomic_exchange,
      critical_section, get_interrupt_mask, memory_order_relaxed,
      memory_order_seq_cst, memory_order_acq_rel, memory_order_acquire,
      memory_order_release, memory_barrier, accessAndBarriers, isDmb,
      isAccess, h, h0, h2, h3, h4, h5]

/-- Witness for C9 at the out-of-range ordering value 7. -/
theorem order_argument_totality_witness :
    (__atomic_store_1 3 7 ⟨9, false⟩).1.mem = 3
      ∧ accessAndBarriers (__atomic_store_1 3 7 ⟨9, false⟩).2
        = [Event.dmb, Event.writeMem 3] :=
  (order_argument_totality ⟨9, false⟩ 3 7 (by decide)).1

/-- C4 counterexample: at ordering acquire, the barrier sequence exchange
emits inside the guard is not the sequence the translator would emit for a
load-then-store pair (entry per the load rule, exit per the store rule):
exchange emits a leading barrier that the load rule would not. -/
theorem exchange_differs_from_translator_pair_at_acquire :
    accessAndBarriers
        (__atomic_exchange_4 1 memory_order_acquire ⟨0, false⟩).2.2
      ≠ translator_load_store_pair 1 memory_order_acquire := by decide

/-- C4 as amended: at every width, exchange emits exactly one barrier
before its read and one after its write when the ordering is not relaxed
(none when relaxed); this coincides with the translator's
load-rule-entry/store-rule-exit sequence exactly for the orderings
relaxed, acq_rel and seq_cst, and differs for consume, acquire and
release. -/
theorem exchange_barrier_refinement (s : MachState) (v o : Int) :
    (preAccessDmbs (__atomic_exchange_1 v o s).2.2
        = (if o = memory_order_relaxed then 0 else 1)
      ∧ postAccessDmbs (__atomic_exchange_1 v o s).2.2
        = (if o = memory_order_relaxed then 0 else 1)
      ∧ (accessAndBarriers (__atomic_exchange_1 v o s).2.2
          = translator_load_store_pair v o
        ↔ (o = memory_order_relaxed ∨ o = memory_order_acq_rel
          ∨ o = memory_order_seq_cst)))
    ∧ (preAccessDmbs (__atomic_exchange_2 v o s).2.2
        = (if o = memory_order_relaxed then 0 else 1)
      ∧ postAccessDmbs (__atomic_exchange_2 v o s).2.2
        = (if o = memory_order_relaxed then 0 else 1)
      ∧ (accessAndBarriers (__atomic_exchange_2 v o s).2.2
          = translator_load_store_pair v o
        ↔ (o = memory_order_relaxed ∨ o = memory_order_acq_rel
          ∨ o = memory_order_seq_cst)))
    ∧ (preAccessDmbs (__atomic_exchange_4 v o s).2.2
        = (if o = memory_order_relaxed then 0 else 1)
      ∧ postAccessDmbs (__atomic_exchange_4 v o s).2.2
        = (if o = memory_order_relaxed then 0 else 1)
      ∧ (accessAndBarriers (__atomic_exchange_4 v o s).2.2
          = translator_load_store_pair v o
        ↔ (o = memory_order_relaxed ∨ o = memory_order_acq_rel
          ∨ o = memory_order_seq_cst)))
    ∧ (preAccessDmbs (__atomic_exchange_8 v o s).2.2
        = (if o = memory_order_relaxed then 0 else 1)
      ∧ postAccessDmbs (__atomic_exchange_8 v o s).2.2
        = (if o = memory_order_relaxed then 0 else 1)
      ∧ (accessAndBarriers (__atomic_exchange_8 v o s).2.2
          = translator_load_store_pair v o
        ↔ (o = memory_order_relaxed ∨ o = memory_order_acq_rel
          ∨ o = memory_order_seq_cst))) := by
  by_cases h : s.primask <;> by_cases h0 : o = 0 <;> by_cases h2 : o = 2 <;>
    by_cases h3 : o = 3 <;> by_cases h4 : o = 4 <;> by_cases h5 : o = 5 <;>
    first
      | omega
      | simp [__atomic_exchange_1, __atomic_exchange_2, __atomic_exchange_4,
          __atomic_exchange_8, atomic_exchange, critical_section,
          translator_load_store_pair, get_interrupt_mask,
          memory_order_relaxed, memory_order_seq_cst, memory_order_acq_rel,
          memory_order_acquire, memory_order_release, memory_barrier,
          preAccessDmbs, postAccessDmbs, accessAndBarriers, isDmb, isAccess,
          h, h0, h2, h3, h4, h5]

/-- C5: the 1-, 2- and 4-byte loads and stores never invoke the guard
(their traces contain no interrupt toggles), while the 8-byte load and
store and every exchange invoke it: when interrupts are enabled on entry
the trace is the toggle-free body bracketed by cpsid/cpsie, with the raw
access inside that body. -/
theorem width_guard_usage (s : MachState) (v o : Int) :
    ((__atomic_store_1 v o s).2
        = accessAndBarriers (__atomic_store_1 v o s).2)
    ∧ ((__atomic_store_2 v o s).2
        = accessAndBarriers (__atomic_store_2 v o s).2)
    ∧ ((__atomic_store_4 v o s).2
        = accessAndBarriers (__atomic_store_4 v o s).2)
    ∧ ((__atomic_load_1 o s).2.2
        = accessAndBarriers (__atomic_load_1 o s).2.2)
    ∧ ((__atomic_load_2 o s).2.2
        = accessAndBarriers (__atomic_load_2 o s).2.2)
    ∧ ((__atomic_load_4 o s).2.2
        = accessAndBarriers (__atomic_load_4 o s).2.2)
    ∧ ((__atomic_store_8 v o s).2
        = (if s.primask then accessAndBarriers (__atomic_store_8 v o s).2
          else Event.cpsid :: accessAndBarriers (__atomic_store_8 v o s).2
            ++ [Event.cpsie])
      ∧ Event.writeMem v ∈ accessAndBarriers (__atomic_store_8 v o s).2)
    ∧ ((__atomic_load_8 o s).2.2
        = (if s.primask then accessAndBarriers (__atomic_load_8 o s).2.2
          else Event.cpsid :: accessAndBarriers (__atomic_load_8 o s).2.2
            ++ [Event.cpsie])
      ∧ Event.readMem ∈ accessAndBarriers (__atomic_load_8 o s).2.2)
    ∧ ((__atomic_exchange_1 v o s).2.2
        = (if s.primask then accessAndBarriers (__atomic_exchange_1 v o s).2.2
          else Event.cpsid :: accessAndBarriers (__atomic_exchange_1 v o s).2.2
            ++ [Event.cpsie])
      ∧ Event.readMem ∈ accessAndBarriers (__atomic_exchange_1 v o s).2.2
      ∧ Event.writeMem v ∈ accessAndBarriers (__atomic_exchange_1 v o s).2.2)
    ∧ ((__atomic_exchange_2 v o s).2.2
        = (if s.primask then accessAndBarriers (__atomic_exchange_2 v o s).2.2
          else Event.cpsid :: accessAndBarriers (__atomic_exchange_2 v o s).2.2
            ++ [Event.cpsie])
      ∧ Event.readMem ∈ accessAndBarriers (__atomic_exchange_2 v o s).2.2
      ∧ Event.writeMem v ∈ accessAndBarriers (__atomic_exchange_2 v o s).2.2)
    ∧ ((__atomic_exchange_4 v o s).2.2
        = (if s.primask then accessAndBarriers (__atomic_exchange_4 v o s).2.2
          else Event.cpsid :: accessAndBarriers (__atomic_exchange_4 v o s).2.2
            ++ [Event.cpsie])
      ∧ Event.readMem ∈ accessAndBarriers (__atomic_exchange_4 v o s).2.2
      ∧ Event.writeMem v ∈ accessAndBarriers (__atomic_exchange_4 v o s).2.2)
    ∧ ((__atomic_exchange_8 v o s).2.2
        = (if s.primask then accessAndBarriers (__atomic_exchange_8 v o s).2.2
          else Event.cpsid :: accessAndBarriers (__atomic_exchange_8 v o s).2.2
            ++ [Event.cpsie])
      ∧ Event.readMem ∈ accessAndBarriers (__atomic_exchange_8 v o s).2.2
      ∧ Event.writeMem v
          ∈ accessAndBarriers (__atomic_exchange_8 v o s).2.2) := by
  by_cases h : s.primask <;> by_cases h0 : o = 0 <;> by_cases h2 : o = 2 <;>
    by_cases h3 : o = 3 <;> by_cases h4 : o = 4 <;> by_cases h5 : o = 5 <;>
    first
      | omega
      | simp [__atomic_store_1, __atomic_store_2, __atomic_store_4,
          __atomic_store_8, atomic_store, critical_section_void,
          __atomic_load_1, __atomic_load_2, __atomic_load_4, __atomic_load_8,
          atomic_load, __atomic_exchange_1, __atomic_exchange_2,
          __atomic_exchange_4, __atomic_exchange_8, atomic_exchange,
          critical_section, get_interrupt_mask, memory_order_relaxed,
          memory_order_seq_cst, memory_order_acq_rel, memory_order_acquire,
          memory_order_release, memory_barrier, accessAndBarriers, isDmb,
          isAccess, h, h0, h2, h3, h4, h5]

/-- C1: every guarded operation (exchange at every width, 8-byte load and
8-byte store) leaves the interrupt-mask flag exactly as it found it; when
interrupts were already masked on entry the trace contains no mask toggle
at all (it equals its own toggle-free subtrace), and when they were
enabled the guard masks them first (cpsid), runs the toggle-free body, and
unmasks them last (cpsie). -/
theorem guard_restores_interrupt_state (s : MachState) (v o : Int) :
    ((__atomic_exchange_1 v o s).2.1.primask = s.primask
      ∧ (__atomic_exchange_1 v o s).2.2
        = (if s.primask then accessAndBarriers (__atomic_exchange_1 v o s).2.2
          else Event.cpsid :: accessAndBarriers (__atomic_exchange_1 v o s).2.2
            ++ [Event.cpsie]))
    ∧ ((__atomic_exchange_2 v o s).2.1.primask = s.primask
      ∧ (__atomic_exchange_2 v o s).2.2
        = (if s.primask then accessAndBarriers (__atomic_exchange_2 v o s).2.2
          else Event.cpsid :: accessAndBarriers (__atomic_exchange_2 v o s).2.2
            ++ [Event.cpsie]))
    ∧ ((__atomic_exchange_4 v o s).2.1.primask = s.primask
      ∧ (__atomic_exchange_4 v o s).2.2
        = (if s.primask then accessAndBarriers (__atomic_exchange_4 v o s).2.2
          else Event.cpsid :: accessAndBarriers (__atomic_exchange_4 v o s).2.2
            ++ [Event.cpsie]))
    ∧ ((__atomic_exchange_8 v o s).2.1.primask = s.primask
      ∧ (__atomic_exchange_8 v o s).2.2
        = (if s.primask then accessAndBarriers (__atomic_exchange_8 v o s).2.2
          else Event.cpsid :: accessAndBarriers (__atomic_exchange_8 v o s).2.2
            ++ [Event.cpsie]))
    ∧ ((__atomic_store_8 v o s).1.primask = s.primask
      ∧ (__atomic_store_8 v o s).2
        = (if s.primask then accessAndBarriers (__atomic_store_8 v o s).2
          else Event.cpsid :: accessAndBarriers (__atomic_store_8 v o s).2
            ++ [Event.cpsie]))
    ∧ ((__atomic_load_8 o s).2.1.primask = s.primask
      ∧ (__atomic_load_8 o s).2.2
        = (if s.primask then accessAndBarriers (__atomic_load_8 o s).2.2
          else Event.cpsid :: accessAndBarriers (__atomic_load_8 o s).2.2
            ++ [Event.cpsie])) := by
  by_cases h : s.primask <;> by_cases h0 : o = 0 <;> by_cases h2 : o = 2 <;>
    by_cases h3 : o = 3 <;> by_cases h4 : o = 4 <;> by_cases h5 : o = 5 <;>
    first
      | omega
      | simp [__atomic_store_8, atomic_store, critical_section_void,
          __atomic_load_8, atomic_load, __atomic_exchange_1,
          __atomic_exchange_2, __atomic_exchange_4, __atomic_exchange_8,
          atomic_exchange, critical_section, get_interrupt_mask,
          memory_order_relaxed, memory_order_seq_cst, memory_order_acq_rel,
          memory_order_acquire, memory_order_release, memory_barrier,
          accessAndBarriers, isDmb, isAccess, h, h0, h2, h3, h4, h5]
